import Mathlib

/-!
Verification of the Agent Enforcer 2 Rust CI stage runner
(`src/templates/build.rs`), shallowly embedded in Lean 4.

The program is a single orchestration loop: a fixed tool registry
(`tools_config`), a subprocess runner (`run_tool`), an orchestration loop
(`run_all_checks`), a report aggregator (the summary computation), and a
presentation layer (`main`).  Subprocess execution and wall-clock timing
are external effects; they are modelled by an oracle `Env` mapping a
command and its argument vector to the outcome of that launch (failure
with an OS error message, or completion with an exit status and captured
output), together with an observed duration.  Everything else is a direct
translation of the Rust source.

Rust's `BTreeMap<String, _>` is modelled by an association list kept
strictly sorted by key (`btInsert`, `btGet`, `btKeys`): Rust string order
is lexicographic on UTF-8 bytes, which for valid Unicode agrees with the
lexicographic order on code points used by Lean's `String` order.
-/

/-- Wall-clock durations in milliseconds (Rust `u128`). -/
abbrev Millis := Nat

/-- One entry of the tool registry (Rust struct `ToolConfig`). -/
structure ToolConfig where
  description : String
  critical : Bool
  can_fix : Bool
  command : String
  args : List String
  args_fix : List String
deriving Repr, DecidableEq

/-- The key order of Rust's `BTreeMap<String, _>`: `str` orders
lexicographically on UTF-8 bytes, which on valid Unicode text is the
lexicographic order on code points, i.e. on the underlying `List Char`. -/
def strLt (a b : String) : Prop := a.data < b.data

instance instDecStrLt (a b : String) : Decidable (strLt a b) :=
  inferInstanceAs (Decidable (a.data < b.data))

/-- Insert into an association list that is strictly sorted by key,
replacing an existing binding: the model of `BTreeMap::insert`. -/
def btInsert {α : Type} (k : String) (v : α) : List (String × α) → List (String × α)
  | [] => [(k, v)]
  | (k₁, v₁) :: rest =>
    if strLt k k₁ then (k, v) :: (k₁, v₁) :: rest
    else if k = k₁ then (k, v) :: rest
    else (k₁, v₁) :: btInsert k v rest

/-- Lookup in the association-list map: the model of `BTreeMap::get`. -/
def btGet {α : Type} (k : String) : List (String × α) → Option α
  | [] => none
  | (k₁, v₁) :: rest => if k = k₁ then some v₁ else btGet k rest

/-- Keys of the association-list map, in storage (ascending) order:
the model of `BTreeMap::keys`. -/
def btKeys {α : Type} (m : List (String × α)) : List String :=
  m.map Prod.fst

/-- Build a map from a list of entries: the model of `BTreeMap::from`. -/
def btFromList {α : Type} (l : List (String × α)) : List (String × α) :=
  l.foldl (fun acc p => btInsert p.1 p.2 acc) []

/-- Directories to check (Rust constant `TARGET_DIRS`). -/
def TARGET_DIRS : List String := ["src", "crates", "tests"]

/-- The tool registry (Rust `tools_config`): three hard-coded entries,
stored as a `BTreeMap` and hence held in ascending key order. -/
def tools_config : List (String × ToolConfig) :=
  btFromList [
    ("cargo-fmt",
      { description := "Formatter (cargo fmt)"
        critical := true
        can_fix := false
        command := "cargo"
        args := ["fmt", "--all", "--", "--check"]
        args_fix := ["fmt", "--all"] }),
    ("cargo-clippy",
      { description := "Linter (cargo clippy)"
        critical := true
        can_fix := false
        command := "cargo"
        args := ["clippy", "--all-targets", "--all-features", "--", "-D", "warnings"]
        args_fix := [] }),
    ("cargo-test",
      { description := "Test runner (cargo test)"
        critical := true
        can_fix := false
        command := "cargo"
        args := ["test", "--all-features"]
        args_fix := [] })]

/-- Per-tool outcome record (Rust struct `ToolResult`).  `exit_code` is an
`i32` in Rust; no arithmetic is performed on it, so `Int` is a faithful
model. -/
structure ToolResult where
  tool : String
  description : String
  available : Bool
  exit_code : Int
  stdout : String
  stderr : String
  critical : Bool
  can_fix : Bool
  fixed : Bool
  duration_ms : Millis
deriving Repr, DecidableEq

/-- Aggregated counts and verdict (Rust struct `Summary`). -/
structure Summary where
  total_tools_run : Nat
  critical_failures : Nat
  overall_status : String
  duration_ms : Millis
deriving Repr, DecidableEq

/-- The whole report (Rust struct `Report`): a `BTreeMap` from tool name
to `ToolResult` plus one `Summary`. -/
structure Report where
  tools : List (String × ToolResult)
  summary : Summary
deriving Repr, DecidableEq

/-- Parsed command-line options (Rust struct `Cli`). -/
structure Cli where
  tool : Option String
  paths : List String
  fix : Bool
  json : Bool
  verbose : Bool
deriving Repr, DecidableEq

/-- Exit status of a completed child process (Rust `std::process::ExitStatus`):
either a numeric code or termination without one (killed by a signal). -/
inductive ExitStatus : Type where
  | code (c : Int) : ExitStatus
  | signal : ExitStatus
deriving Repr, DecidableEq

/-- Rust `status_to_exit_code`: the numeric code, or 1 when the process
terminated without one. -/
def status_to_exit_code : ExitStatus → Int
  | .code c => c
  | .signal => 1

/-- Outcome of one attempted subprocess launch, as observed by the runner:
either `Command::output()` returned an error (launch failure) or the child
ran to completion with an exit status and captured, lossily-decoded output
streams.  The duration is the wall-clock time measured around the call. -/
inductive LaunchOutcome : Type
  | failure (errMsg : String) (duration_ms : Millis) : LaunchOutcome
  | success (status : ExitStatus) (stdout stderr : String) (duration_ms : Millis) : LaunchOutcome
deriving Repr, DecidableEq

/-- The external world for one run: what launching `command` with `args`
does.  Each tool is launched at most once per run, and no two distinct
registry entries share a command-and-argument vector, so a function of the
spawned command line is a faithful oracle. -/
def Env : Type := String → List String → LaunchOutcome

/-- Argument-list selection inside `run_tool` (Rust lines 183-187):
`args_fix` if fix mode is requested, the tool can fix, and `args_fix` is
non-empty; otherwise `args`. -/
def selectArgs (cfg : ToolConfig) (fix_mode : Bool) : List String :=
  if fix_mode && cfg.can_fix && !cfg.args_fix.isEmpty then cfg.args_fix else cfg.args

/-- The command line `run_tool` passes to the operating system. -/
def run_tool_spawn (cfg : ToolConfig) (fix_mode : Bool) : String × List String :=
  (cfg.command, selectArgs cfg fix_mode)

/-- Rust `run_tool`: run one tool and convert the outcome (including a
launch failure) into a `ToolResult`.  `target_paths` and `verbose` only
affect diagnostic logging in the source and never the result. -/
def run_tool (tool_name : String) (cfg : ToolConfig) (target_paths : List String)
    (fix_mode : Bool) (verbose : Bool) (env : Env) : ToolResult :=
  let args := selectArgs cfg fix_mode
  match env cfg.command args with
  | .failure errMsg dur =>
    { tool := tool_name
      description := cfg.description
      available := false
      exit_code := 127
      stdout := ""
      stderr := "Failed to execute `" ++ cfg.command ++ "`: " ++ errMsg
      critical := cfg.critical
      can_fix := cfg.can_fix
      fixed := fix_mode && cfg.can_fix
      duration_ms := dur }
  | .success status out err dur =>
    { tool := tool_name
      description := cfg.description
      available := true
      exit_code := status_to_exit_code status
      stdout := out
      stderr := err
      critical := cfg.critical
      can_fix := cfg.can_fix
      fixed := fix_mode && cfg.can_fix
      duration_ms := dur }

/-- Model of `Iterator::position`: index of the first element satisfying
the predicate. -/
def position (p : String → Bool) : List String → Option Nat
  | [] => none
  | x :: xs => if p x then some 0 else (position p xs).map (· + 1)

/-- The fixed preferred run order (Rust local `preferred_order`). -/
def preferred_order : List String := ["cargo-fmt", "cargo-clippy", "cargo-test"]

/-- The sort key used by `run_all_checks` (Rust lines 244-249): position
in `preferred_order`, or the sentinel 999 for unlisted names. -/
def preferred_index (name : String) : Nat :=
  (position (fun x => x == name) preferred_order).getD 999

/-- Insert one name into an already-sorted run list, after all names of
smaller-or-equal key: one step of a stable insertion sort. -/
def insertByKey (x : String) : List String → List String
  | [] => [x]
  | y :: ys =>
    if preferred_index x ≤ preferred_index y then x :: y :: ys else y :: insertByKey x ys

/-- Model of `tools_to_run.sort_by_key(...)` (Rust lines 244-249): Rust's
sort is stable, and a stable sort by a key is uniquely determined by the
key, so stable insertion sort computes the same list. -/
def sort_by_preferred : List String → List String
  | [] => []
  | x :: xs => insertByKey x (sort_by_preferred xs)

/-- Tool selection (Rust lines 236-240): the single requested name, or
every registry key. -/
def working_set (cli : Cli) : List String :=
  match cli.tool with
  | some only => [only]
  | none => btKeys tools_config

/-- The order in which `run_all_checks` visits tools. -/
def run_order (cli : Cli) : List String :=
  sort_by_preferred (working_set cli)

/-- Target-path resolution (Rust lines 251-255). -/
def resolve_target_paths (cli : Cli) : List String :=
  if cli.paths.isEmpty then TARGET_DIRS else cli.paths

/-- `results.values().filter(|r| r.critical && r.exit_code != 0).count()`
(Rust lines 268-271). -/
def critical_failures_of (results : List (String × ToolResult)) : Nat :=
  (results.filter (fun p => p.2.critical && p.2.exit_code != 0)).length

/-- The overall verdict (Rust lines 273-277). -/
def overall_status_of (results : List (String × ToolResult)) : String :=
  if critical_failures_of results > 0 then "FAIL" else "PASS"

/-- The `for tool_name in tools_to_run` loop (Rust lines 259-266),
instrumented with the list of command lines actually handed to the OS:
look each name up in the registry, abort with the `Unknown tool` error on
a miss, otherwise run the tool and insert its result into the `BTreeMap`
of results. -/
def runLoop (configs : List (String × ToolConfig)) (target_paths : List String)
    (fix_mode : Bool) (verbose : Bool) (env : Env) :
    List String → List (String × ToolResult) → List (String × List String) →
    Except String (List (String × ToolResult)) × List (String × List String)
  | [], results, spawns => (.ok results, spawns)
  | tool_name :: rest, results, spawns =>
    match btGet tool_name configs with
    | none => (.error ("Unknown tool: " ++ tool_name), spawns)
    | some cfg =>
      runLoop configs target_paths fix_mode verbose env rest
        (btInsert tool_name (run_tool tool_name cfg target_paths fix_mode verbose env) results)
        (spawns ++ [run_tool_spawn cfg fix_mode])

/-- Rust `run_all_checks`, with the spawn trace exposed: select and order
the tools, run the loop, then aggregate the summary.  `loop_duration_ms`
is the externally-observed wall-clock time of the whole loop. -/
def run_all_checks_traced (cli : Cli) (env : Env) (loop_duration_ms : Millis) :
    Except String Report × List (String × List String) :=
  let configs := tools_config
  let tools_to_run := sort_by_preferred (working_set cli)
  let target_paths := resolve_target_paths cli
  match runLoop configs target_paths cli.fix cli.verbose env tools_to_run [] [] with
  | (.error e, spawns) => (.error e, spawns)
  | (.ok results, spawns) =>
    (.ok
      { tools := results
        summary :=
          { total_tools_run := results.length
            critical_failures := critical_failures_of results
            overall_status := overall_status_of results
            duration_ms := loop_duration_ms } }, spawns)

/-- Rust `run_all_checks`: the report (or error) alone. -/
def run_all_checks (cli : Cli) (env : Env) (loop_duration_ms : Millis) :
    Except String Report :=
  (run_all_checks_traced cli env loop_duration_ms).1

/-- The command lines handed to the OS during one invocation. -/
def spawned (cli : Cli) (env : Env) (loop_duration_ms : Millis) :
    List (String × List String) :=
  (run_all_checks_traced cli env loop_duration_ms).2

/-- Human-readable mode's per-tool stdout lines (Rust lines 301-304):
one line per tool, in the report's key order, `OK` meaning exit code 0. -/
def human_stdout_lines (report : Report) : List String :=
  report.tools.map fun p =>
    "  " ++ p.1 ++ ": " ++ (if p.2.exit_code = 0 then "OK" else "FAIL")

/-- The process exit status set by Rust `main`: 1 when `run_all_checks`
fails or the report's verdict is not PASS, otherwise 0 (Rust `main`
returns `Result`, and the runtime maps `Ok` to exit status 0 and `Err` to
a non-zero status, 1). -/
def main_exit_code (cli : Cli) (env : Env) (loop_duration_ms : Millis) : Nat :=
  match run_all_checks cli env loop_duration_ms with
  | .error _ => 1
  | .ok report => if report.summary.overall_status = "PASS" then 0 else 1

/-- JSON values for the report schema.  The derived `Serialize` instances
only ever produce strings, booleans, integers, and string-keyed objects,
so this fragment of JSON is the whole codomain of serialization. -/
inductive Json : Type where
  | str (s : String) : Json
  | int (n : Int) : Json
  | bool (b : Bool) : Json
  | obj (fields : List (String × Json)) : Json

/-- Serialization of one `ToolResult` as its derived `Serialize` instance
emits it: an object with the struct's fields in declaration order. -/
def toolResultToJson (r : ToolResult) : Json :=
  .obj [
    ("tool", .str r.tool),
    ("description", .str r.description),
    ("available", .bool r.available),
    ("exit_code", .int r.exit_code),
    ("stdout", .str r.stdout),
    ("stderr", .str r.stderr),
    ("critical", .bool r.critical),
    ("can_fix", .bool r.can_fix),
    ("fixed", .bool r.fixed),
    ("duration_ms", .int (r.duration_ms : Int))]

/-- Serialization of the `Summary` struct. -/
def summaryToJson (s : Summary) : Json :=
  .obj [
    ("total_tools_run", .int (s.total_tools_run : Int)),
    ("critical_failures", .int (s.critical_failures : Int)),
    ("overall_status", .str s.overall_status),
    ("duration_ms", .int (s.duration_ms : Int))]

/-- Serialization of the whole `Report`: serde emits the `tools`
`BTreeMap` as an object with one member per entry in key order, then the
`summary` object.  It is total: serialization of this schema never
fails. -/
def reportToJson (rep : Report) : Json :=
  .obj [
    ("tools", .obj (rep.tools.map fun p => (p.1, toolResultToJson p.2))),
    ("summary", summaryToJson rep.summary)]

/-- Schema decoder for one tool object: accepts exactly the shape
`toolResultToJson` produces, as a consumer parsing the documented report
shape would. -/
def toolResultFromJson : Json → Option ToolResult
  | .obj [
      ("tool", .str tool),
      ("description", .str description),
      ("available", .bool available),
      ("exit_code", .int exit_code),
      ("stdout", .str stdout),
      ("stderr", .str stderr),
      ("critical", .bool critical),
      ("can_fix", .bool can_fix),
      ("fixed", .bool fixed),
      ("duration_ms", .int d)] =>
    if d < 0 then none
    else
      some
        { tool := tool
          description := description
          available := available
          exit_code := exit_code
          stdout := stdout
          stderr := stderr
          critical := critical
          can_fix := can_fix
          fixed := fixed
          duration_ms := d.toNat }
  | _ => none

/-- Schema decoder for the summary object. -/
def summaryFromJson : Json → Option Summary
  | .obj [
      ("total_tools_run", .int t),
      ("critical_failures", .int c),
      ("overall_status", .str overall_status),
      ("duration_ms", .int d)] =>
    if t < 0 || c < 0 || d < 0 then none
    else
      some
        { total_tools_run := t.toNat
          critical_failures := c.toNat
          overall_status := overall_status
          duration_ms := d.toNat }
  | _ => none

/-- Decode the members of the `tools` object one at a time. -/
def toolsFromJson : List (String × Json) → Option (List (String × ToolResult))
  | [] => some []
  | (k, j) :: rest =>
    match toolResultFromJson j, toolsFromJson rest with
    | some r, some rs => some ((k, r) :: rs)
    | _, _ => none

/-- Schema decoder for the whole report. -/
def reportFromJson : Json → Option Report
  | .obj [("tools", .obj members), ("summary", sj)] =>
    match toolsFromJson members, summaryFromJson sj with
    | some tools, some summary => some { tools := tools, summary := summary }
    | _, _ => none
  | _ => none

/-- The registry entry for `cargo-fmt`, named for use in theorem statements. -/
def cfg_fmt : ToolConfig :=
  { description := "Formatter (cargo fmt)"
    critical := true
    can_fix := false
    command := "cargo"
    args := ["fmt", "--all", "--", "--check"]
    args_fix := ["fmt", "--all"] }

/-- The registry entry for `cargo-clippy`, named for use in theorem statements. -/
def cfg_clippy : ToolConfig :=
  { description := "Linter (cargo clippy)"
    critical := true
    can_fix := false
    command := "cargo"
    args := ["clippy", "--all-targets", "--all-features", "--", "-D", "warnings"]
    args_fix := [] }

/-- The registry entry for `cargo-test`, named for use in theorem statements. -/
def cfg_test : ToolConfig :=
  { description := "Test runner (cargo test)"
    critical := true
    can_fix := false
    command := "cargo"
    args := ["test", "--all-features"]
    args_fix := [] }

/-- The Report a no-filter invocation produces: all three registry tools
run in preferred order and land in the result map in key order. -/
def report_none (paths : List String) (fix json verbose : Bool) (env : Env)
    (dur : Millis) : Report :=
  { tools := [
      ("cargo-clippy",
        run_tool "cargo-clippy" cfg_clippy
          (resolve_target_paths ⟨none, paths, fix, json, verbose⟩) fix verbose env),
      ("cargo-fmt",
        run_tool "cargo-fmt" cfg_fmt
          (resolve_target_paths ⟨none, paths, fix, json, verbose⟩) fix verbose env),
      ("cargo-test",
        run_tool "cargo-test" cfg_test
          (resolve_target_paths ⟨none, paths, fix, json, verbose⟩) fix verbose env)],
    summary :=
      { total_tools_run := 3,
        critical_failures := critical_failures_of [
          ("cargo-clippy",
            run_tool "cargo-clippy" cfg_clippy
              (resolve_target_paths ⟨none, paths, fix, json, verbose⟩) fix verbose env),
          ("cargo-fmt",
            run_tool "cargo-fmt" cfg_fmt
              (resolve_target_paths ⟨none, paths, fix, json, verbose⟩) fix verbose env),
          ("cargo-test",
            run_tool "cargo-test" cfg_test
              (resolve_target_paths ⟨none, paths, fix, json, verbose⟩) fix verbose env)],
        overall_status := overall_status_of [
          ("cargo-clippy",
            run_tool "cargo-clippy" cfg_clippy
              (resolve_target_paths ⟨none, paths, fix, json, verbose⟩) fix verbose env),
          ("cargo-fmt",
            run_tool "cargo-fmt" cfg_fmt
              (resolve_target_paths ⟨none, paths, fix, json, verbose⟩) fix verbose env),
          ("cargo-test",
            run_tool "cargo-test" cfg_test
              (resolve_target_paths ⟨none, paths, fix, json, verbose⟩) fix verbose env)],
        duration_ms := dur } }

/-! Helper lemmas: the map order, `btInsert`, and the run-order sort. -/

theorem strLt_trans {a b c : String} (h₁ : strLt a b) (h₂ : strLt b c) : strLt a c :=
  lt_trans h₁ h₂

theorem strLt_irrefl (a : String) : ¬ strLt a a :=
  lt_irrefl a.data

theorem strLt_trichotomy (a b : String) : strLt a b ∨ a = b ∨ strLt b a := by
  rcases lt_trichotomy a.data b.data with h | h | h
  · exact Or.inl h
  · exact Or.inr (Or.inl (String.toList_inj.mp h))
  · exact Or.inr (Or.inr h)

theorem strLt_ne {a b : String} (h : strLt a b) : a ≠ b := by
  intro e
  subst e
  exact strLt_irrefl a h

theorem btInsert_cons_lt {α : Type} {k k₁ : String} (v v₁ : α) (rest : List (String × α))
    (h : strLt k k₁) : btInsert k v ((k₁, v₁) :: rest) = (k, v) :: (k₁, v₁) :: rest := by
  simp [btInsert, h]

theorem btInsert_cons_eq {α : Type} {k : String} (v v₁ : α) (rest : List (String × α))
    (h : ¬ strLt k k) : btInsert k v ((k, v₁) :: rest) = (k, v) :: rest := by
  simp [btInsert, h]

theorem btInsert_cons_gt {α : Type} {k k₁ : String} (v v₁ : α) (rest : List (String × α))
    (h₁ : ¬ strLt k k₁) (h₂ : ¬ k = k₁) :
    btInsert k v ((k₁, v₁) :: rest) = (k₁, v₁) :: btInsert k v rest := by
  simp [btInsert, h₁, h₂]

theorem mem_btKeys_btInsert {α : Type} (k : String) (v : α) (a : String) :
    ∀ m : List (String × α), (a ∈ btKeys (btInsert k v m) ↔ a = k ∨ a ∈ btKeys m) := by
  intro m
  induction m with
  | nil => simp [btInsert, btKeys]
  | cons p rest ih =>
    obtain ⟨k₁, v₁⟩ := p
    by_cases h₁ : strLt k k₁
    · rw [btInsert_cons_lt v v₁ rest h₁]
      simp [btKeys]
    · by_cases h₂ : k = k₁
      · subst h₂
        rw [btInsert_cons_eq v v₁ rest h₁]
        simp [btKeys]
      · rw [btInsert_cons_gt v v₁ rest h₁ h₂]
        simp only [btKeys, List.map_cons, List.mem_cons] at ih ⊢
        rw [ih]
        tauto

theorem btKeys_btInsert_sorted {α : Type} (k : String) (v : α) :
    ∀ m : List (String × α), (btKeys m).Pairwise strLt →
      (btKeys (btInsert k v m)).Pairwise strLt := by
  intro m
  induction m with
  | nil =>
    intro _
    simp [btInsert, btKeys]
  | cons p rest ih =>
    obtain ⟨k₁, v₁⟩ := p
    intro hs
    simp only [btKeys, List.map_cons, List.pairwise_cons] at hs
    obtain ⟨hhead, htail⟩ := hs
    by_cases h₁ : strLt k k₁
    · rw [btInsert_cons_lt v v₁ rest h₁]
      simp only [btKeys, List.map_cons, List.pairwise_cons]
      refine ⟨?_, hhead, htail⟩
      intro a ha
      rcases List.mem_cons.mp ha with h | h
      · subst h
        exact h₁
      · exact strLt_trans h₁ (hhead a h)
    · by_cases h₂ : k = k₁
      · subst h₂
        rw [btInsert_cons_eq v v₁ rest h₁]
        simp only [btKeys, List.map_cons, List.pairwise_cons]
        exact ⟨hhead, htail⟩
      · rw [btInsert_cons_gt v v₁ rest h₁ h₂]
        simp only [btKeys, List.map_cons, List.pairwise_cons]
        have hk₁k : strLt k₁ k := by
          rcases strLt_trichotomy k k₁ with h | h | h
          · exact absurd h h₁
          · exact absurd h h₂
          · exact h
        refine ⟨?_, ih htail⟩
        intro a ha
        rcases (mem_btKeys_btInsert k v a rest).mp ha with h | h
        · subst h
          exact hk₁k
        · exact hhead a h

theorem preferred_index_eq (name : String) :
    preferred_index name =
      if name = "cargo-fmt" then 0
      else if name = "cargo-clippy" then 1
      else if name = "cargo-test" then 2
      else 999 := by
  by_cases h₁ : name = "cargo-fmt"
  · subst h₁
    rfl
  · by_cases h₂ : name = "cargo-clippy"
    · subst h₂
      rfl
    · by_cases h₃ : name = "cargo-test"
      · subst h₃
        rfl
      · have e₁ : ("cargo-fmt" == name) = false := by
          simp [Ne.symm h₁]
        have e₂ : ("cargo-clippy" == name) = false := by
          simp [Ne.symm h₂]
        have e₃ : ("cargo-test" == name) = false := by
          simp [Ne.symm h₃]
        simp [preferred_index, preferred_order, position, e₁, e₂, e₃, h₁, h₂, h₃]

theorem mem_preferred_order_iff (name : String) :
    name ∈ preferred_order ↔
      name = "cargo-fmt" ∨ name = "cargo-clippy" ∨ name = "cargo-test" := by
  simp [preferred_order]

theorem preferred_index_lt_iff_mem (name : String) :
    preferred_index name < 999 ↔ name ∈ preferred_order := by
  rw [preferred_index_eq, mem_preferred_order_iff]
  by_cases h₁ : name = "cargo-fmt" <;> by_cases h₂ : name = "cargo-clippy" <;>
    by_cases h₃ : name = "cargo-test" <;> simp [h₁, h₂, h₃]

theorem preferred_index_eq_sentinel (name : String) (h : name ∉ preferred_order) :
    preferred_index name = 999 := by
  rw [mem_preferred_order_iff] at h
  push_neg at h
  rw [preferred_index_eq]
  simp [h.1, h.2.1, h.2.2]

theorem insertByKey_perm (x : String) :
    ∀ l : List String, (insertByKey x l).Perm (x :: l) := by
  intro l
  induction l with
  | nil => simp [insertByKey]
  | cons y ys ih =>
    by_cases h : preferred_index x ≤ preferred_index y
    · simp [insertByKey, h]
    · rw [show insertByKey x (y :: ys) = y :: insertByKey x ys from by
        simp [insertByKey, h]]
      exact (ih.cons y).trans (List.Perm.swap x y ys)

theorem sort_by_preferred_perm (l : List String) : (sort_by_preferred l).Perm l := by
  induction l with
  | nil => simp [sort_by_preferred]
  | cons x xs ih =>
    exact (insertByKey_perm x (sort_by_preferred xs)).trans (ih.cons x)

theorem insertByKey_sorted (x : String) :
    ∀ l : List String,
      l.Pairwise (fun a b => preferred_index a ≤ preferred_index b) →
      (insertByKey x l).Pairwise (fun a b => preferred_index a ≤ preferred_index b) := by
  intro l
  induction l with
  | nil =>
    intro _
    simp [insertByKey]
  | cons y ys ih =>
    intro hs
    rw [List.pairwise_cons] at hs
    obtain ⟨hhead, htail⟩ := hs
    by_cases h : preferred_index x ≤ preferred_index y
    · rw [show insertByKey x (y :: ys) = x :: y :: ys from by simp [insertByKey, h]]
      rw [List.pairwise_cons]
      constructor
      · intro a ha
        rcases List.mem_cons.mp ha with h' | h'
        · subst h'
          exact h
        · exact le_trans h (hhead a h')
      · rw [List.pairwise_cons]
        exact ⟨hhead, htail⟩
    · rw [show insertByKey x (y :: ys) = y :: insertByKey x ys from by
        simp [insertByKey, h]]
      rw [List.pairwise_cons]
      constructor
      · intro a ha
        rcases List.mem_cons.mp ((insertByKey_perm x ys).mem_iff.mp ha) with h' | h'
        · subst h'
          exact le_of_lt (lt_of_not_le h)
        · exact hhead a h'
      · exact ih htail

theorem sort_by_preferred_sorted (l : List String) :
    (sort_by_preferred l).Pairwise (fun a b => preferred_index a ≤ preferred_index b) := by
  induction l with
  | nil => simp [sort_by_preferred]
  | cons x xs ih => exact insertByKey_sorted x (sort_by_preferred xs) ih

theorem insertByKey_filter (x : String) (k : Nat) :
    ∀ l : List String,
      (insertByKey x l).filter (fun a => preferred_index a == k) =
        ((x :: l).filter (fun a => preferred_index a == k)) := by
  intro l
  induction l with
  | nil => simp [insertByKey]
  | cons y ys ih =>
    by_cases h : preferred_index x ≤ preferred_index y
    · rw [show insertByKey x (y :: ys) = x :: y :: ys from by simp [insertByKey, h]]
    · rw [show insertByKey x (y :: ys) = y :: insertByKey x ys from by
        simp [insertByKey, h]]
      by_cases hx : preferred_index x = k
      · have hy : ¬ preferred_index y = k := by
          intro e
          rw [← hx] at e
          exact h (le_of_eq e.symm)
        simp only [List.filter_cons, hx, hy, beq_iff_eq, if_pos, if_neg,
          decide_eq_true_eq] at ih ⊢
        simp only [ih]
        simp [hx, hy]
      · simp only [List.filter_cons, beq_iff_eq] at ih ⊢
        simp only [ih]
        simp [hx]

theorem sort_by_preferred_stable (l : List String) (k : Nat) :
    (sort_by_preferred l).filter (fun a => preferred_index a == k) =
      l.filter (fun a => preferred_index a == k) := by
  induction l with
  | nil => simp [sort_by_preferred]
  | cons x xs ih =>
    rw [show sort_by_preferred (x :: xs) = insertByKey x (sort_by_preferred xs) from rfl]
    rw [insertByKey_filter]
    simp only [List.filter_cons]
    rw [ih]

theorem tools_config_eval :
    tools_config =
      [("cargo-clippy", cfg_clippy), ("cargo-fmt", cfg_fmt), ("cargo-test", cfg_test)] := by
  rfl

theorem btGet_fmt : btGet "cargo-fmt" tools_config = some cfg_fmt := by rfl

theorem btGet_clippy : btGet "cargo-clippy" tools_config = some cfg_clippy := by rfl

theorem btGet_test : btGet "cargo-test" tools_config = some cfg_test := by rfl

theorem run_order_none (paths : List String) (fix json verbose : Bool) :
    run_order ⟨none, paths, fix, json, verbose⟩ =
      ["cargo-fmt", "cargo-clippy", "cargo-test"] := by
  rfl

theorem run_order_single (name : String) (paths : List String) (fix json verbose : Bool) :
    run_order ⟨some name, paths, fix, json, verbose⟩ = [name] := by
  rfl

theorem run_all_checks_none_eval (paths : List String) (fix json verbose : Bool)
    (env : Env) (dur : Millis) :
    run_all_checks_traced ⟨none, paths, fix, json, verbose⟩ env dur =
      (.ok
        { tools := [
            ("cargo-clippy",
              run_tool "cargo-clippy" cfg_clippy
                (resolve_target_paths ⟨none, paths, fix, json, verbose⟩) fix verbose env),
            ("cargo-fmt",
              run_tool "cargo-fmt" cfg_fmt
                (resolve_target_paths ⟨none, paths, fix, json, verbose⟩) fix verbose env),
            ("cargo-test",
              run_tool "cargo-test" cfg_test
                (resolve_target_paths ⟨none, paths, fix, json, verbose⟩) fix verbose env)]
          summary :=
            { total_tools_run := 3
              critical_failures := critical_failures_of [
                ("cargo-clippy",
                  run_tool "cargo-clippy" cfg_clippy
                    (resolve_target_paths ⟨none, paths, fix, json, verbose⟩) fix verbose env),
                ("cargo-fmt",
                  run_tool "cargo-fmt" cfg_fmt
                    (resolve_target_paths ⟨none, paths, fix, json, verbose⟩) fix verbose env),
                ("cargo-test",
                  run_tool "cargo-test" cfg_test
                    (resolve_target_paths ⟨none, paths, fix, json, verbose⟩) fix verbose env)]
              overall_status := overall_status_of [
                ("cargo-clippy",
                  run_tool "cargo-clippy" cfg_clippy
                    (resolve_target_paths ⟨none, paths, fix, json, verbose⟩) fix verbose env),
                ("cargo-fmt",
                  run_tool "cargo-fmt" cfg_fmt
                    (resolve_target_paths ⟨none, paths, fix, json, verbose⟩) fix verbose env),
                ("cargo-test",
                  run_tool "cargo-test" cfg_test
                    (resolve_target_paths ⟨none, paths, fix, json, verbose⟩) fix verbose env)]
              duration_ms := dur } },
        [("cargo", selectArgs cfg_fmt fix),
         ("cargo", selectArgs cfg_clippy fix),
         ("cargo", selectArgs cfg_test fix)]) := by
  rfl

theorem run_all_checks_single_known (name : String) (cfg : ToolConfig)
    (paths : List String) (fix json verbose : Bool) (env : Env) (dur : Millis)
    (h : btGet name tools_config = some cfg) :
    run_all_checks_traced ⟨some name, paths, fix, json, verbose⟩ env dur =
      (.ok
        { tools := [(name,
            run_tool name cfg
              (resolve_target_paths ⟨some name, paths, fix, json, verbose⟩) fix verbose env)]
          summary :=
            { total_tools_run := 1
              critical_failures := critical_failures_of [(name,
                run_tool name cfg
                  (resolve_target_paths ⟨some name, paths, fix, json, verbose⟩)
                  fix verbose env)]
              overall_status := overall_status_of [(name,
                run_tool name cfg
                  (resolve_target_paths ⟨some name, paths, fix, json, verbose⟩)
                  fix verbose env)]
              duration_ms := dur } },
        [(cfg.command, selectArgs cfg fix)]) := by
  have hws : sort_by_preferred (working_set ⟨some name, paths, fix, json, verbose⟩) = [name] := rfl
  simp only [run_all_checks_traced, hws, runLoop, h, btInsert, run_tool_spawn,
    List.nil_append]
  rfl

theorem run_all_checks_single_unknown (name : String)
    (paths : List String) (fix json verbose : Bool) (env : Env) (dur : Millis)
    (h : btGet name tools_config = none) :
    run_all_checks_traced ⟨some name, paths, fix, json, verbose⟩ env dur =
      (.error ("Unknown tool: " ++ name), []) := by
  have hws : sort_by_preferred (working_set ⟨some name, paths, fix, json, verbose⟩) = [name] := rfl
  simp only [run_all_checks_traced, hws, runLoop, h]

theorem runLoop_error_shape (configs : List (String × ToolConfig))
    (target_paths : List String) (fix_mode verbose : Bool) (env : Env) :
    ∀ (ts : List String) (acc : List (String × ToolResult))
      (sp : List (String × List String)) (e : String) (sp' : List (String × List String)),
      runLoop configs target_paths fix_mode verbose env ts acc sp = (.error e, sp') →
      ∃ n, n ∈ ts ∧ btGet n configs = none ∧ e = "Unknown tool: " ++ n := by
  intro ts
  induction ts with
  | nil =>
    intro acc sp e sp' h
    simp [runLoop] at h
  | cons n rest ih =>
    intro acc sp e sp' h
    cases hg : btGet n configs with
    | none =>
      simp only [runLoop, hg] at h
      obtain ⟨he, _⟩ := Prod.mk.injEq .. ▸ h
      refine ⟨n, List.mem_cons_self n rest, hg, ?_⟩
      cases congrArg (fun x : Except String (List (String × ToolResult)) × _ => x.1) h
      rfl
    | some cfg =>
      simp only [runLoop, hg] at h
      obtain ⟨m, hm, hgm, he⟩ := ih _ _ _ _ h
      exact ⟨m, List.mem_cons_of_mem n hm, hgm, he⟩

theorem runLoop_ok_sorted (configs : List (String × ToolConfig))
    (target_paths : List String) (fix_mode verbose : Bool) (env : Env) :
    ∀ (ts : List String) (acc : List (String × ToolResult))
      (sp : List (String × List String)) (results : List (String × ToolResult))
      (sp' : List (String × List String)),
      runLoop configs target_paths fix_mode verbose env ts acc sp = (.ok results, sp') →
      (btKeys acc).Pairwise strLt → (btKeys results).Pairwise strLt := by
  intro ts
  induction ts with
  | nil =>
    intro acc sp results sp' h hs
    simp only [runLoop, Prod.mk.injEq, Except.ok.injEq] at h
    rw [← h.1]
    exact hs
  | cons n rest ih =>
    intro acc sp results sp' h hs
    cases hg : btGet n configs with
    | none => simp [runLoop, hg] at h
    | some cfg =>
      simp only [runLoop, hg] at h
      exact ih _ _ _ _ h (btKeys_btInsert_sorted n _ acc hs)

theorem runLoop_ok_mem (configs : List (String × ToolConfig))
    (target_paths : List String) (fix_mode verbose : Bool) (env : Env) :
    ∀ (ts : List String) (acc : List (String × ToolResult))
      (sp : List (String × List String)) (results : List (String × ToolResult))
      (sp' : List (String × List String)),
      runLoop configs target_paths fix_mode verbose env ts acc sp = (.ok results, sp') →
      ∀ n, n ∈ ts ∨ n ∈ btKeys acc → n ∈ btKeys results := by
  intro ts
  induction ts with
  | nil =>
    intro acc sp results sp' h n hn
    simp only [runLoop, Prod.mk.injEq, Except.ok.injEq] at h
    rw [← h.1]
    rcases hn with hn | hn
    · simp at hn
    · exact hn
  | cons m rest ih =>
    intro acc sp results sp' h n hn
    cases hg : btGet m configs with
    | none => simp [runLoop, hg] at h
    | some cfg =>
      simp only [runLoop, hg] at h
      rcases hn with hn | hn
      · rcases List.mem_cons.mp hn with hn | hn
        · subst hn
          exact ih _ _ _ _ h n (Or.inr ((mem_btKeys_btInsert n _ n acc).mpr (Or.inl rfl)))
        · exact ih _ _ _ _ h n (Or.inl hn)
      · exact ih _ _ _ _ h n (Or.inr ((mem_btKeys_btInsert m _ n acc).mpr (Or.inr hn)))

set_option maxHeartbeats 1000000 in
theorem toolResult_roundtrip (r : ToolResult) :
    toolResultFromJson (toolResultToJson r) = some r := by
  simp [toolResultToJson, toolResultFromJson, Int.toNat_natCast]

theorem summary_roundtrip (s : Summary) :
    summaryFromJson (summaryToJson s) = some s := by
  simp [summaryToJson, summaryFromJson, Int.toNat_natCast]

theorem toolsFromJson_roundtrip :
    ∀ l : List (String × ToolResult),
      toolsFromJson (l.map fun p => (p.1, toolResultToJson p.2)) = some l := by
  intro l
  induction l with
  | nil => simp [toolsFromJson]
  | cons p rest ih =>
    simp [toolsFromJson, toolResult_roundtrip, ih]

theorem report_roundtrip (rep : Report) :
    reportFromJson (reportToJson rep) = some rep := by
  simp [reportToJson, reportFromJson, toolsFromJson_roundtrip, summary_roundtrip]

theorem run_all_checks_ok_shape (cli : Cli) (env : Env) (dur : Millis) (report : Report)
    (h : run_all_checks cli env dur = .ok report) :
    ∃ results spawns,
      runLoop tools_config (resolve_target_paths cli) cli.fix cli.verbose env
        (sort_by_preferred (working_set cli)) [] [] = (.ok results, spawns) ∧
      report =
        { tools := results
          summary :=
            { total_tools_run := results.length
              critical_failures := critical_failures_of results
              overall_status := overall_status_of results
              duration_ms := dur } } := by
  simp only [run_all_checks, run_all_checks_traced] at h
  rcases hr : runLoop tools_config (resolve_target_paths cli) cli.fix cli.verbose env
      (sort_by_preferred (working_set cli)) [] [] with ⟨exc, spawns⟩
  rw [hr] at h
  cases exc with
  | error e => simp at h
  | ok results =>
    simp only [Except.ok.injEq] at h
    exact ⟨results, spawns, rfl, h.symm⟩

theorem run_all_checks_error_shape (cli : Cli) (env : Env) (dur : Millis) (e : String)
    (h : run_all_checks cli env dur = .error e) :
    ∃ n, cli.tool = some n ∧ btGet n tools_config = none ∧ e = "Unknown tool: " ++ n := by
  simp only [run_all_checks, run_all_checks_traced] at h
  rcases hr : runLoop tools_config (resolve_target_paths cli) cli.fix cli.verbose env
      (sort_by_preferred (working_set cli)) [] [] with ⟨exc, spawns⟩
  rw [hr] at h
  cases exc with
  | ok results => simp at h
  | error e' =>
    simp only [Except.error.injEq] at h
    subst h
    obtain ⟨n, hmem, hnone, he⟩ :=
      runLoop_error_shape tools_config (resolve_target_paths cli) cli.fix cli.verbose env
        _ _ _ _ _ hr
    cases hc : cli.tool with
    | some n₀ =>
      have hws : working_set cli = [n₀] := by
        simp [working_set, hc]
      rw [hws] at hmem
      have : sort_by_preferred [n₀] = [n₀] := rfl
      rw [this] at hmem
      rcases List.mem_singleton.mp hmem with rfl
      exact ⟨n, rfl, hnone, he⟩
    | none =>
      have hws : working_set cli = btKeys tools_config := by
        simp [working_set, hc]
      rw [hws] at hmem
      have : sort_by_preferred (btKeys tools_config) =
          ["cargo-fmt", "cargo-clippy", "cargo-test"] := rfl
      rw [this] at hmem
      simp only [List.mem_cons, List.mem_singleton, List.not_mem_nil, or_false] at hmem
      rcases hmem with hn | hn | hn
      · rw [hn, btGet_fmt] at hnone
        cases hnone
      · rw [hn, btGet_clippy] at hnone
        cases hnone
      · rw [hn, btGet_test] at hnone
        cases hnone

theorem critical_failures_pos_iff (results : List (String × ToolResult)) :
    0 < critical_failures_of results ↔
      ∃ p ∈ results, p.2.critical = true ∧ p.2.exit_code ≠ 0 := by
  unfold critical_failures_of
  rw [List.length_pos_iff_exists_mem]
  constructor
  · rintro ⟨p, hp⟩
    rw [List.mem_filter] at hp
    rcases Bool.and_eq_true_iff.mp hp.2 with ⟨hc, hn⟩
    exact ⟨p, hp.1, hc, bne_iff_ne.mp hn⟩
  · rintro ⟨p, hpmem, hcrit, hne⟩
    refine ⟨p, List.mem_filter.mpr ⟨hpmem, ?_⟩⟩
    simp [hcrit, bne_iff_ne, hne]

/-- Claim C1: for every collected result set, the Summary's overall_status is
"FAIL" if and only if at least one ToolResult has critical=true and a non-zero
exit code, and is "PASS" otherwise; critical_failures counts exactly those
results; non-critical failing tools never change the overall status; and in
every Report produced by `run_all_checks`, the summary fields are computed by
exactly these functions of the collected results. -/
theorem claim_C1 :
    (∀ results : List (String × ToolResult),
      (overall_status_of results = "FAIL" ↔
        ∃ p ∈ results, p.2.critical = true ∧ p.2.exit_code ≠ 0) ∧
      (overall_status_of results ≠ "FAIL" → overall_status_of results = "PASS") ∧
      critical_failures_of results =
        results.countP (fun p => p.2.critical && p.2.exit_code != 0) ∧
      overall_status_of results =
        overall_status_of (results.filter fun p => p.2.critical)) ∧
    (∀ (cli : Cli) (env : Env) (dur : Millis) (report : Report),
      run_all_checks cli env dur = .ok report →
      report.summary.overall_status = overall_status_of report.tools ∧
      report.summary.critical_failures = critical_failures_of report.tools) := by
  constructor
  · intro results
    refine ⟨?_, ?_, ?_, ?_⟩
    · unfold overall_status_of
      by_cases h : 0 < critical_failures_of results
      · rw [if_pos h]
        exact ⟨fun _ => (critical_failures_pos_iff results).mp h, fun _ => rfl⟩
      · rw [if_neg h]
        constructor
        · intro hpf
          exact absurd hpf (by decide)
        · intro hex
          exact absurd ((critical_failures_pos_iff results).mpr hex) h
    · intro hne
      unfold overall_status_of at *
      by_cases h : 0 < critical_failures_of results
      · rw [if_pos h] at hne
        exact absurd rfl hne
      · rw [if_neg h]
    · unfold critical_failures_of
      exact (List.countP_eq_length_filter _ _).symm
    · by_cases h : 0 < critical_failures_of results
      · have h' : 0 < critical_failures_of (results.filter fun p => p.2.critical) := by
          rcases (critical_failures_pos_iff results).mp h with ⟨p, hm, hc, hn⟩
          exact (critical_failures_pos_iff _).mpr
            ⟨p, List.mem_filter.mpr ⟨hm, hc⟩, hc, hn⟩
        unfold overall_status_of
        rw [if_pos h, if_pos h']
      · have h' : ¬ 0 < critical_failures_of (results.filter fun p => p.2.critical) := by
          intro hx
          rcases (critical_failures_pos_iff _).mp hx with ⟨p, hm, hc, hn⟩
          exact h ((critical_failures_pos_iff results).mpr
            ⟨p, (List.mem_filter.mp hm).1, hc, hn⟩)
        unfold overall_status_of
        rw [if_neg h, if_neg h']
  · intro cli env dur report h
    obtain ⟨results, spawns, _, hrep⟩ := run_all_checks_ok_shape cli env dur report h
    subst hrep
    exact ⟨rfl, rfl⟩

/-- Witness for C1: a singleton result set with a critical non-zero exit is
FAIL, and a concrete full run's summary fields agree with the aggregator. -/
theorem claim_C1_witness :
    (overall_status_of
      [("cargo-clippy",
        { tool := "cargo-clippy", description := "Linter (cargo clippy)",
          available := true, exit_code := 1, stdout := "", stderr := "",
          critical := true, can_fix := false, fixed := false,
          duration_ms := 0 })] = "FAIL") ∧
    (∃ report,
      run_all_checks ⟨none, [], false, false, false⟩
        (fun _ _ => .success (.code 0) "" "" 7) 5 = .ok report ∧
      report.summary.overall_status = overall_status_of report.tools) := by
  constructor
  · exact (claim_C1.1 _).1.mpr ⟨_, List.mem_singleton.mpr rfl, rfl, by decide⟩
  · have hrun : run_all_checks ⟨none, [], false, false, false⟩
        (fun _ _ => .success (.code 0) "" "" 7) 5 =
        .ok
          { tools := [
              ("cargo-clippy",
                { tool := "cargo-clippy", description := "Linter (cargo clippy)",
                  available := true, exit_code := 0, stdout := "", stderr := "",
                  critical := true, can_fix := false, fixed := false,
                  duration_ms := 7 }),
              ("cargo-fmt",
                { tool := "cargo-fmt", description := "Formatter (cargo fmt)",
                  available := true, exit_code := 0, stdout := "", stderr := "",
                  critical := true, can_fix := false, fixed := false,
                  duration_ms := 7 }),
              ("cargo-test",
                { tool := "cargo-test", description := "Test runner (cargo test)",
                  available := true, exit_code := 0, stdout := "", stderr := "",
                  critical := true, can_fix := false, fixed := false,
                  duration_ms := 7 })],
            summary := { total_tools_run := 3, critical_failures := 0,
                         overall_status := "PASS", duration_ms := 5 } } := by
      rfl
    exact ⟨_, hrun, (claim_C1.2 _ _ _ _ hrun).1⟩

/-- Claim C2: with --tool name, if the name is a registry key exactly that
tool runs (the report has that single key and exactly one subprocess is
spawned); if not, the run fails with the Unknown tool error, produces no
Report, and spawns nothing; and every error `run_all_checks` can return is
an Unknown tool error for a requested name absent from the registry. -/
theorem claim_C2 :
    (∀ (name : String) (cfg : ToolConfig) (paths : List String)
        (fix json verbose : Bool) (env : Env) (dur : Millis),
      btGet name tools_config = some cfg →
      ∃ report,
        run_all_checks ⟨some name, paths, fix, json, verbose⟩ env dur = .ok report ∧
        btKeys report.tools = [name] ∧
        spawned ⟨some name, paths, fix, json, verbose⟩ env dur =
          [(cfg.command, selectArgs cfg fix)]) ∧
    (∀ (name : String) (paths : List String) (fix json verbose : Bool)
        (env : Env) (dur : Millis),
      btGet name tools_config = none →
      run_all_checks ⟨some name, paths, fix, json, verbose⟩ env dur =
        .error ("Unknown tool: " ++ name) ∧
      spawned ⟨some name, paths, fix, json, verbose⟩ env dur = []) ∧
    (∀ (cli : Cli) (env : Env) (dur : Millis) (e : String),
      run_all_checks cli env dur = .error e →
      ∃ n, cli.tool = some n ∧ btGet n tools_config = none ∧
        e = "Unknown tool: " ++ n) := by
  refine ⟨?_, ?_, ?_⟩
  · intro name cfg paths fix json verbose env dur h
    have ht := run_all_checks_single_known name cfg paths fix json verbose env dur h
    have h1 : run_all_checks ⟨some name, paths, fix, json, verbose⟩ env dur =
        .ok
          { tools := [(name,
              run_tool name cfg
                (resolve_target_paths ⟨some name, paths, fix, json, verbose⟩)
                fix verbose env)],
            summary :=
              { total_tools_run := 1,
                critical_failures := critical_failures_of [(name,
                  run_tool name cfg
                    (resolve_target_paths ⟨some name, paths, fix, json, verbose⟩)
                    fix verbose env)],
                overall_status := overall_status_of [(name,
                  run_tool name cfg
                    (resolve_target_paths ⟨some name, paths, fix, json, verbose⟩)
                    fix verbose env)],
                duration_ms := dur } } := by
      unfold run_all_checks
      rw [ht]
    have h2 : spawned ⟨some name, paths, fix, json, verbose⟩ env dur =
        [(cfg.command, selectArgs cfg fix)] := by
      unfold spawned
      rw [ht]
    exact ⟨_, h1, rfl, h2⟩
  · intro name paths fix json verbose env dur h
    have ht := run_all_checks_single_unknown name paths fix json verbose env dur h
    constructor
    · unfold run_all_checks
      rw [ht]
    · unfold spawned
      rw [ht]
  · intro cli env dur e h
    exact run_all_checks_error_shape cli env dur e h

/-- Witness for C2: requesting cargo-fmt runs exactly cargo-fmt with its
check arguments; requesting an absent name errors without spawning. -/
theorem claim_C2_witness :
    (∃ report,
      run_all_checks ⟨some "cargo-fmt", [], false, false, false⟩
        (fun _ _ => .success (.code 0) "" "" 2) 3 = .ok report ∧
      btKeys report.tools = ["cargo-fmt"] ∧
      spawned ⟨some "cargo-fmt", [], false, false, false⟩
        (fun _ _ => .success (.code 0) "" "" 2) 3 =
        [("cargo", ["fmt", "--all", "--", "--check"])]) ∧
    (run_all_checks ⟨some "does-not-exist", [], false, false, false⟩
        (fun _ _ => .success (.code 0) "" "" 2) 3 =
      .error ("Unknown tool: " ++ "does-not-exist") ∧
     spawned ⟨some "does-not-exist", [], false, false, false⟩
        (fun _ _ => .success (.code 0) "" "" 2) 3 = []) := by
  constructor
  · obtain ⟨report, h1, h2, h3⟩ :=
      claim_C2.1 "cargo-fmt" cfg_fmt [] false false false
        (fun _ _ => .success (.code 0) "" "" 2) 3 btGet_fmt
    refine ⟨report, h1, h2, ?_⟩
    rw [h3]
    rfl
  · exact claim_C2.2.1 "does-not-exist" [] false false false
      (fun _ _ => .success (.code 0) "" "" 2) 3 (by rfl)

theorem main_exit_code_ok (cli : Cli) (env : Env) (dur : Millis) (report : Report)
    (h : run_all_checks cli env dur = .ok report) :
    main_exit_code cli env dur =
      if report.summary.overall_status = "PASS" then 0 else 1 := by
  unfold main_exit_code
  rw [h]

theorem main_exit_code_error (cli : Cli) (env : Env) (dur : Millis) (e : String)
    (h : run_all_checks cli env dur = .error e) :
    main_exit_code cli env dur = 1 := by
  unfold main_exit_code
  rw [h]

/-- Claim C3: whenever a Report is produced, the process exit status is zero
iff its overall_status is "PASS" (and 1 otherwise); in particular a requested
critical tool whose launch fails yields a non-zero exit status, since its
exit_code 127 counts as a critical failure. -/
theorem claim_C3 :
    (∀ (cli : Cli) (env : Env) (dur : Millis) (report : Report),
      run_all_checks cli env dur = .ok report →
      (main_exit_code cli env dur = 0 ↔ report.summary.overall_status = "PASS") ∧
      (report.summary.overall_status ≠ "PASS" → main_exit_code cli env dur = 1)) ∧
    (∀ (name : String) (cfg : ToolConfig) (paths : List String)
        (fix json verbose : Bool) (env : Env) (dur : Millis)
        (msg : String) (d : Millis),
      btGet name tools_config = some cfg →
      cfg.critical = true →
      env cfg.command (selectArgs cfg fix) = .failure msg d →
      main_exit_code ⟨some name, paths, fix, json, verbose⟩ env dur ≠ 0) := by
  constructor
  · intro cli env dur report h
    rw [main_exit_code_ok cli env dur report h]
    by_cases hp : report.summary.overall_status = "PASS"
    · rw [if_pos hp]
      exact ⟨⟨fun _ => hp, fun _ => rfl⟩, fun hn => absurd hp hn⟩
    · rw [if_neg hp]
      exact ⟨⟨fun h1 => absurd h1 one_ne_zero, fun hps => absurd hps hp⟩, fun _ => rfl⟩
  · intro name cfg paths fix json verbose env dur msg d hget hcrit henv
    have ht := run_all_checks_single_known name cfg paths fix json verbose env dur hget
    have h1 : run_all_checks ⟨some name, paths, fix, json, verbose⟩ env dur =
        .ok
          { tools := [(name,
              run_tool name cfg
                (resolve_target_paths ⟨some name, paths, fix, json, verbose⟩)
                fix verbose env)],
            summary :=
              { total_tools_run := 1,
                critical_failures := critical_failures_of [(name,
                  run_tool name cfg
                    (resolve_target_paths ⟨some name, paths, fix, json, verbose⟩)
                    fix verbose env)],
                overall_status := overall_status_of [(name,
                  run_tool name cfg
                    (resolve_target_paths ⟨some name, paths, fix, json, verbose⟩)
                    fix verbose env)],
                duration_ms := dur } } := by
      unfold run_all_checks
      rw [ht]
    have hr : run_tool name cfg
        (resolve_target_paths ⟨some name, paths, fix, json, verbose⟩) fix verbose env =
        { tool := name, description := cfg.description, available := false,
          exit_code := 127, stdout := "",
          stderr := "Failed to execute `" ++ cfg.command ++ "`: " ++ msg,
          critical := cfg.critical, can_fix := cfg.can_fix,
          fixed := fix && cfg.can_fix, duration_ms := d } := by
      unfold run_tool
      dsimp only
      rw [henv]
    have hcf : critical_failures_of [(name,
        run_tool name cfg
          (resolve_target_paths ⟨some name, paths, fix, json, verbose⟩)
          fix verbose env)] = 1 := by
      rw [hr]
      simp [critical_failures_of, hcrit]
    have hos : overall_status_of [(name,
        run_tool name cfg
          (resolve_target_paths ⟨some name, paths, fix, json, verbose⟩)
          fix verbose env)] = "FAIL" := by
      unfold overall_status_of
      rw [hcf]
      rfl
    rw [main_exit_code_ok _ env dur _ h1]
    simp only [hos]
    simp

/-- Witness for C3: an all-zero single-tool run exits 0; a critical tool
whose launch fails makes the process exit non-zero. -/
theorem claim_C3_witness :
    (main_exit_code ⟨some "cargo-fmt", [], false, false, false⟩
      (fun _ _ => .success (.code 0) "" "" 2) 3 = 0) ∧
    (main_exit_code ⟨some "cargo-fmt", [], false, false, false⟩
      (fun _ _ => .failure "No such file or directory (os error 2)" 1) 4 ≠ 0) := by
  constructor
  · have hrun : run_all_checks ⟨some "cargo-fmt", [], false, false, false⟩
        (fun _ _ => .success (.code 0) "" "" 2) 3 =
        .ok
          { tools := [("cargo-fmt",
              { tool := "cargo-fmt", description := "Formatter (cargo fmt)",
                available := true, exit_code := 0, stdout := "", stderr := "",
                critical := true, can_fix := false, fixed := false,
                duration_ms := 2 })],
            summary := { total_tools_run := 1, critical_failures := 0,
                         overall_status := "PASS", duration_ms := 3 } } := by
      rfl
    exact (claim_C3.1 _ _ _ _ hrun).1.mpr rfl
  · exact claim_C3.2 "cargo-fmt" cfg_fmt [] false false false
      (fun _ _ => .failure "No such file or directory (os error 2)" 1) 4
      "No such file or directory (os error 2)" 1 btGet_fmt rfl rfl

theorem runLoop_ok_of_found (configs : List (String × ToolConfig))
    (target_paths : List String) (fix_mode verbose : Bool) (env : Env) :
    ∀ (ts : List String) (acc : List (String × ToolResult))
      (sp : List (String × List String)),
      (∀ n ∈ ts, ∃ c, btGet n configs = some c) →
      ∃ results spawns,
        runLoop configs target_paths fix_mode verbose env ts acc sp =
          (.ok results, spawns) := by
  intro ts
  induction ts with
  | nil =>
    intro acc sp _
    exact ⟨acc, sp, rfl⟩
  | cons n rest ih =>
    intro acc sp hall
    obtain ⟨c, hc⟩ := hall n (List.mem_cons_self n rest)
    obtain ⟨results, spawns, hr⟩ :=
      ih (btInsert n (run_tool n c target_paths fix_mode verbose env) acc)
        (sp ++ [run_tool_spawn c fix_mode])
        (fun m hm => hall m (List.mem_cons_of_mem n hm))
    refine ⟨results, spawns, ?_⟩
    simp only [runLoop, hc]
    exact hr

/-- Claim C4: a tool whose launch fails yields (rather than throws) a
ToolResult with available=false, exit_code=127, empty stdout, a non-empty
stderr naming the command and the OS error, and the same `fixed` value as
the success path computes; and the orchestration loop keeps going: when
every listed tool is in the registry the loop still returns a full result
map containing every listed tool, whatever the launch outcomes. -/
theorem claim_C4 :
    (∀ (tool_name : String) (cfg : ToolConfig) (target_paths : List String)
        (fix_mode verbose : Bool) (env : Env) (errMsg : String) (d : Millis),
      env cfg.command (selectArgs cfg fix_mode) = .failure errMsg d →
      run_tool tool_name cfg target_paths fix_mode verbose env =
        { tool := tool_name, description := cfg.description, available := false,
          exit_code := 127, stdout := "",
          stderr := "Failed to execute `" ++ cfg.command ++ "`: " ++ errMsg,
          critical := cfg.critical, can_fix := cfg.can_fix,
          fixed := fix_mode && cfg.can_fix, duration_ms := d } ∧
      (run_tool tool_name cfg target_paths fix_mode verbose env).stderr ≠ "" ∧
      (∀ (env₂ : Env) (st : ExitStatus) (out err : String) (d₂ : Millis),
        env₂ cfg.command (selectArgs cfg fix_mode) = .success st out err d₂ →
        (run_tool tool_name cfg target_paths fix_mode verbose env).fixed =
          (run_tool tool_name cfg target_paths fix_mode verbose env₂).fixed)) ∧
    (∀ (configs : List (String × ToolConfig)) (target_paths : List String)
        (fix_mode verbose : Bool) (env : Env) (ts : List String)
        (acc : List (String × ToolResult)) (sp : List (String × List String)),
      (∀ n ∈ ts, ∃ c, btGet n configs = some c) →
      ∃ results spawns,
        runLoop configs target_paths fix_mode verbose env ts acc sp =
          (.ok results, spawns) ∧
        ∀ n ∈ ts, n ∈ btKeys results) := by
  constructor
  · intro tool_name cfg target_paths fix_mode verbose env errMsg d henv
    have hr : run_tool tool_name cfg target_paths fix_mode verbose env =
        { tool := tool_name, description := cfg.description, available := false,
          exit_code := 127, stdout := "",
          stderr := "Failed to execute `" ++ cfg.command ++ "`: " ++ errMsg,
          critical := cfg.critical, can_fix := cfg.can_fix,
          fixed := fix_mode && cfg.can_fix, duration_ms := d } := by
      unfold run_tool
      dsimp only
      rw [henv]
    refine ⟨hr, ?_, ?_⟩
    · rw [hr]
      intro hemp
      have hlen := congrArg String.length hemp
      simp only [String.length_append] at hlen
      have h19 : ("Failed to execute `" : String).length = 19 := rfl
      have h0 : ("" : String).length = 0 := rfl
      rw [h19, h0] at hlen
      omega
    · intro env₂ st out err d₂ henv₂
      have hr₂ : run_tool tool_name cfg target_paths fix_mode verbose env₂ =
          { tool := tool_name, description := cfg.description, available := true,
            exit_code := status_to_exit_code st, stdout := out, stderr := err,
            critical := cfg.critical, can_fix := cfg.can_fix,
            fixed := fix_mode && cfg.can_fix, duration_ms := d₂ } := by
        unfold run_tool
        dsimp only
        rw [henv₂]
      rw [hr, hr₂]
  · intro configs target_paths fix_mode verbose env ts acc sp hall
    obtain ⟨results, spawns, hr⟩ :=
      runLoop_ok_of_found configs target_paths fix_mode verbose env ts acc sp hall
    refine ⟨results, spawns, hr, ?_⟩
    intro n hn
    exact runLoop_ok_mem configs target_paths fix_mode verbose env ts acc sp results
      spawns hr n (Or.inl hn)

/-- Witness for C4: with an environment in which every launch fails,
cargo-fmt's result is the synthetic unavailable record, and a two-tool
loop still finishes with both tools present in the result map. -/
theorem claim_C4_witness :
    (run_tool "cargo-fmt" cfg_fmt ["src"] false false
        (fun _ _ => .failure "os error 2" 6) =
      { tool := "cargo-fmt", description := "Formatter (cargo fmt)",
        available := false, exit_code := 127, stdout := "",
        stderr := "Failed to execute `cargo`: os error 2", critical := true,
        can_fix := false, fixed := false, duration_ms := 6 }) ∧
    (∃ results spawns,
      runLoop tools_config ["src"] false false (fun _ _ => .failure "os error 2" 6)
        ["cargo-fmt", "cargo-test"] [] [] = (.ok results, spawns) ∧
      ∀ n ∈ ["cargo-fmt", "cargo-test"], n ∈ btKeys results) := by
  constructor
  · have h := (claim_C4.1 "cargo-fmt" cfg_fmt ["src"] false false
      (fun _ _ => .failure "os error 2" 6) "os error 2" 6 rfl).1
    rw [h]
    rfl
  · refine claim_C4.2 tools_config ["src"] false false
      (fun _ _ => .failure "os error 2" 6) ["cargo-fmt", "cargo-test"] [] [] ?_
    intro n hn
    simp only [List.mem_cons, List.mem_singleton, List.not_mem_nil, or_false] at hn
    rcases hn with rfl | rfl
    · exact ⟨cfg_fmt, btGet_fmt⟩
    · exact ⟨cfg_test, btGet_test⟩

/-- Claim C5: on both the launch-failure and success paths, the `fixed`
field equals `fix_mode && can_fix`, independent of the launch outcome, the
exit code, and the contents of args_fix. -/
theorem claim_C5 (tool_name : String) (cfg : ToolConfig) (target_paths : List String)
    (fix_mode verbose : Bool) (env : Env) :
    (run_tool tool_name cfg target_paths fix_mode verbose env).fixed =
      (fix_mode && cfg.can_fix) := by
  unfold run_tool
  dsimp only
  cases env cfg.command (selectArgs cfg fix_mode) <;> rfl

/-- Claim C6: the argument list handed to the subprocess is args_fix exactly
when fix mode is on, can_fix holds and args_fix is non-empty, and args
otherwise; when can_fix is false args_fix is never consulted (the result
never depends on it), even for the cargo-fmt entry whose args_fix is
non-empty; and the runner consults the environment only at the selected
command line. -/
theorem claim_C6 :
    (∀ (cfg : ToolConfig) (fix_mode : Bool),
      (fix_mode && cfg.can_fix && !cfg.args_fix.isEmpty) = true →
      selectArgs cfg fix_mode = cfg.args_fix) ∧
    (∀ (cfg : ToolConfig) (fix_mode : Bool),
      (fix_mode && cfg.can_fix && !cfg.args_fix.isEmpty) = false →
      selectArgs cfg fix_mode = cfg.args) ∧
    (∀ (cfg : ToolConfig) (fix_mode : Bool),
      cfg.can_fix = false → selectArgs cfg fix_mode = cfg.args) ∧
    (∀ (tool_name : String) (cfg : ToolConfig) (target_paths : List String)
        (fix_mode verbose : Bool) (env env₂ : Env),
      env cfg.command (selectArgs cfg fix_mode) =
        env₂ cfg.command (selectArgs cfg fix_mode) →
      run_tool tool_name cfg target_paths fix_mode verbose env =
        run_tool tool_name cfg target_paths fix_mode verbose env₂) ∧
    (cfg_fmt.can_fix = false ∧ cfg_fmt.args_fix ≠ [] ∧
      btGet "cargo-fmt" tools_config = some cfg_fmt ∧
      ∀ fix_mode, selectArgs cfg_fmt fix_mode = cfg_fmt.args) := by
  refine ⟨?_, ?_, ?_, ?_, rfl, ?_, btGet_fmt, ?_⟩
  · intro cfg fix_mode h
    simp [selectArgs, h]
  · intro cfg fix_mode h
    simp [selectArgs, h]
  · intro cfg fix_mode h
    simp [selectArgs, h]
  · intro tool_name cfg target_paths fix_mode verbose env env₂ h
    unfold run_tool
    dsimp only
    rw [h]
  · intro h
    cases h
  · intro fix_mode
    cases fix_mode <;> rfl

/-- Witness for C6: a fixable config with non-empty args_fix selects
args_fix under --fix; cargo-clippy (empty args_fix) and cargo-fmt
(can_fix=false) both select their check args even under --fix. -/
theorem claim_C6_witness :
    (selectArgs
      { description := "demo", critical := true, can_fix := true, command := "c",
        args := ["check"], args_fix := ["fix"] } true = ["fix"]) ∧
    (selectArgs cfg_clippy true = cfg_clippy.args) ∧
    (selectArgs cfg_fmt true = cfg_fmt.args) := by
  refine ⟨?_, ?_, ?_⟩
  · exact claim_C6.1 _ true rfl
  · exact claim_C6.2.1 _ true rfl
  · exact claim_C6.2.2.1 _ true rfl

/-- Claim C7: the run order is a stable sort of the working set by index in
the preferred list (sentinel 999 for unlisted names): it is a permutation,
sorted by that key, stable (each key class keeps its original order), all
preferred tools come before any unlisted tool, listed names have index
below the sentinel and unlisted names exactly the sentinel, and the order
used by the orchestration loop is exactly this sort of the working set. -/
theorem claim_C7 (l : List String) :
    (sort_by_preferred l).Perm l ∧
    (sort_by_preferred l).Pairwise
      (fun a b => preferred_index a ≤ preferred_index b) ∧
    (∀ k, (sort_by_preferred l).filter (fun a => preferred_index a == k) =
      l.filter (fun a => preferred_index a == k)) ∧
    (sort_by_preferred l).Pairwise
      (fun a b => b ∈ preferred_order → a ∈ preferred_order) ∧
    (∀ name, name ∈ preferred_order → preferred_index name < 999) ∧
    (∀ name, name ∉ preferred_order → preferred_index name = 999) ∧
    (∀ cli : Cli, run_order cli = sort_by_preferred (working_set cli)) := by
  refine ⟨sort_by_preferred_perm l, sort_by_preferred_sorted l,
    sort_by_preferred_stable l, ?_, ?_, preferred_index_eq_sentinel, fun _ => rfl⟩
  · refine (sort_by_preferred_sorted l).imp ?_
    intro a b hle hb
    have hb' : preferred_index b < 999 := (preferred_index_lt_iff_mem b).mpr hb
    exact (preferred_index_lt_iff_mem a).mp (lt_of_le_of_lt hle hb')
  · intro name h
    exact (preferred_index_lt_iff_mem name).mpr h

/-- Witness for C7: a working set with an unlisted tool sorts to the
preferred order followed by the unlisted name, and the index facts hold at
concrete names. -/
theorem claim_C7_witness :
    sort_by_preferred ["custom-tool", "cargo-test", "cargo-fmt"] =
      ["cargo-fmt", "cargo-test", "custom-tool"] ∧
    preferred_index "custom-tool" = 999 ∧
    preferred_index "cargo-fmt" < 999 := by
  refine ⟨rfl, ?_, ?_⟩
  · exact (claim_C7 []).2.2.2.2.2.1 "custom-tool" (by decide)
  · exact (claim_C7 []).2.2.2.2.1 "cargo-fmt" (by decide)

/-- Claim C8: serializing a Report to the JSON schema and decoding it back
is the identity: the same tool keys, per-tool field values, and summary
fields are recovered; encoding is total and lossless for this schema. -/
theorem claim_C8 (rep : Report) : reportFromJson (reportToJson rep) = some rep :=
  report_roundtrip rep

theorem run_all_checks_none_ok (paths : List String) (fix json verbose : Bool)
    (env : Env) (dur : Millis) :
    run_all_checks ⟨none, paths, fix, json, verbose⟩ env dur =
      .ok (report_none paths fix json verbose env dur) := by
  rfl

/-- Claim C9: in every produced Report the tools mapping is held in strict
ascending (lexicographic) key order with no duplicate keys, and the
human-readable mode prints exactly one line per tool in that key order;
this key order differs from the run order: cargo-clippy is printed first
although cargo-fmt runs first. -/
theorem claim_C9 :
    (∀ (cli : Cli) (env : Env) (dur : Millis) (report : Report),
      run_all_checks cli env dur = .ok report →
      (btKeys report.tools).Pairwise strLt ∧
      (btKeys report.tools).Nodup ∧
      human_stdout_lines report =
        report.tools.map (fun p =>
          "  " ++ p.1 ++ ": " ++ (if p.2.exit_code = 0 then "OK" else "FAIL"))) ∧
    (∀ (paths : List String) (fix json verbose : Bool) (env : Env) (dur : Millis),
      btKeys (report_none paths fix json verbose env dur).tools =
        ["cargo-clippy", "cargo-fmt", "cargo-test"] ∧
      run_order ⟨none, paths, fix, json, verbose⟩ =
        ["cargo-fmt", "cargo-clippy", "cargo-test"] ∧
      btKeys (report_none paths fix json verbose env dur).tools ≠
        run_order ⟨none, paths, fix, json, verbose⟩) := by
  constructor
  · intro cli env dur report h
    obtain ⟨results, spawns, hloop, hrep⟩ := run_all_checks_ok_shape cli env dur report h
    have hsorted : (btKeys results).Pairwise strLt :=
      runLoop_ok_sorted tools_config (resolve_target_paths cli) cli.fix cli.verbose env
        _ _ _ _ _ hloop (by simp [btKeys])
    subst hrep
    refine ⟨hsorted, ?_, rfl⟩
    exact hsorted.imp (fun h => strLt_ne h)
  · intro paths fix json verbose env dur
    refine ⟨rfl, rfl, ?_⟩
    show ["cargo-clippy", "cargo-fmt", "cargo-test"] ≠
      ["cargo-fmt", "cargo-clippy", "cargo-test"]
    decide

/-- Witness for C9: a concrete full run's report has sorted, duplicate-free
keys and its human lines come out in key order, clippy before fmt. -/
theorem claim_C9_witness :
    ∃ report,
      run_all_checks ⟨none, [], false, false, false⟩
        (fun _ _ => .success (.code 0) "" "" 9) 11 = .ok report ∧
      (btKeys report.tools).Pairwise strLt ∧
      human_stdout_lines report =
        ["  cargo-clippy: OK", "  cargo-fmt: OK", "  cargo-test: OK"] := by
  have hrun := run_all_checks_none_ok [] false false false
    (fun _ _ => .success (.code 0) "" "" 9) 11
  refine ⟨_, hrun, (claim_C9.1 _ _ _ _ hrun).1, ?_⟩
  have hl := (claim_C9.1 _ _ _ _ hrun).2.2
  rw [hl]
  rfl

/-- Claim C10: with no --tool filter the working set is exactly the registry
keys, the unknown-tool branch is unreachable (the run always returns a
Report), and the tools mapping always holds exactly the three registry
entries with total_tools_run = 3, for every environment (so regardless of
exit codes or launch failures). -/
theorem claim_C10 (paths : List String) (fix json verbose : Bool) (env : Env)
    (dur : Millis) :
    working_set ⟨none, paths, fix, json, verbose⟩ = btKeys tools_config ∧
    run_all_checks ⟨none, paths, fix, json, verbose⟩ env dur =
      .ok (report_none paths fix json verbose env dur) ∧
    (∀ e, run_all_checks ⟨none, paths, fix, json, verbose⟩ env dur ≠ .error e) ∧
    btKeys (report_none paths fix json verbose env dur).tools =
      btKeys tools_config ∧
    (report_none paths fix json verbose env dur).tools.length = 3 ∧
    (report_none paths fix json verbose env dur).summary.total_tools_run = 3 := by
  refine ⟨rfl, run_all_checks_none_ok paths fix json verbose env dur, ?_, rfl, rfl, rfl⟩
  intro e he
  rw [run_all_checks_none_ok paths fix json verbose env dur] at he
  cases he

/-- Witness for C10: the full-run report exists and has three tools even in
an environment where every launch fails. -/
theorem claim_C10_witness :
    run_all_checks ⟨none, [], false, false, false⟩
        (fun _ _ => .failure "permission denied (os error 13)" 0) 2 =
      .ok (report_none [] false false false
        (fun _ _ => .failure "permission denied (os error 13)" 0) 2) ∧
    (report_none [] false false false
      (fun _ _ => .failure "permission denied (os error 13)" 0) 2).summary.total_tools_run = 3 := by
  exact ⟨(claim_C10 [] false false false
      (fun _ _ => .failure "permission denied (os error 13)" 0) 2).2.1,
    (claim_C10 [] false false false
      (fun _ _ => .failure "permission denied (os error 13)" 0) 2).2.2.2.2.2⟩
